import Mathlib

/-!
Shallow embedding of the Distributed Task Queue / Job Processor.

The model follows the Go sources:
  internal/repository/sqlite_repository.go  (job store over SQLite)
  internal/service/rate_limiter.go          (per-tenant rate limiter)
  internal/service/job_service.go           (admission pipeline)
  internal/service/worker_service.go        (worker outcome policy)
  internal/metrics                          (process-local counters)

The SQLite tables are modelled as Lean lists of rows; timestamps are
integer Unix seconds, exactly as stored by the repository.  Each store
call in Go stamps rows with its own time.Now(); the model passes the
current time explicitly as a parameter.
-/

namespace JobQueue

/-- Decidable equality for Except values, used to evaluate the model on
concrete inputs. -/
def exceptDecEq {ε α : Type} [DecidableEq ε] [DecidableEq α] :
    (x y : Except ε α) → Decidable (x = y)
  | .error e, .error f =>
    if h : e = f then .isTrue (by rw [h]) else .isFalse (fun c => h (by cases c; rfl))
  | .ok a, .ok b =>
    if h : a = b then .isTrue (by rw [h]) else .isFalse (fun c => h (by cases c; rfl))
  | .error _, .ok _ => .isFalse (fun c => by cases c)
  | .ok _, .error _ => .isFalse (fun c => by cases c)

instance {ε α : Type} [DecidableEq ε] [DecidableEq α] : DecidableEq (Except ε α) :=
  exceptDecEq

/-- Job status enumeration (models.JobStatus). -/
inductive JobStatus where
  | pending
  | running
  | done
  | failed
deriving DecidableEq

/-- A row of the jobs table.  The idempotency_key column is nullable
(NULL models the Go empty string, which the repository converts to NULL
on insert); leased_at and lease_expires_at are nullable integer
timestamps. -/
structure Job where
  id : String
  tenantId : String
  idempotencyKey : Option String
  payload : String
  status : JobStatus
  maxRetries : Int
  retryCount : Int
  leasedAt : Option Int
  leaseExpiresAt : Option Int
  createdAt : Int
  updatedAt : Int
deriving DecidableEq

/-- A row of the dead_letter_jobs table. -/
structure DeadLetterJob where
  id : String
  jobId : String
  tenantId : String
  payload : String
  failureReason : String
  failedAt : Int
deriving DecidableEq

/-- The persistent store: the two SQLite tables, rows in insertion
order. -/
structure Store where
  jobs : List Job
  deadLetterJobs : List DeadLetterJob
deriving DecidableEq

/-- The fields of models.Job that the repository INSERT statement reads:
the Go struct carries the idempotency key as a plain string, empty
meaning absent. -/
structure JobInput where
  id : String
  tenantId : String
  idempotencyKey : String
  payload : String
  status : JobStatus
  maxRetries : Int
  retryCount : Int
deriving DecidableEq

/-- Errors returned by the repository CreateJob. -/
inductive CreateJobError where
  | duplicateIdempotencyKey (tenantId idempotencyKey : String)
  | uniqueConstraintUnexpected
deriving DecidableEq

namespace SQLiteRepository

/-- The row inserted by CreateJob: the empty idempotency key becomes
NULL, the lease columns are left NULL, created_at = updated_at = now. -/
def insertedRow (input : JobInput) (now : Int) : Job :=
  { id := input.id
    tenantId := input.tenantId
    idempotencyKey := if input.idempotencyKey = "" then none else some input.idempotencyKey
    payload := input.payload
    status := input.status
    maxRetries := input.maxRetries
    retryCount := input.retryCount
    leasedAt := none
    leaseExpiresAt := none
    createdAt := now
    updatedAt := now }

/-- The INSERT violates a UNIQUE constraint when the primary key (id)
collides, or when a non-NULL idempotency key collides with an existing
row of the same tenant.  SQLite treats NULL keys as pairwise distinct,
so a NULL key never collides. -/
def uniqueViolation (st : Store) (input : JobInput) : Prop :=
  (∃ r ∈ st.jobs, r.id = input.id) ∨
    (input.idempotencyKey ≠ "" ∧
      ∃ r ∈ st.jobs, r.tenantId = input.tenantId ∧ r.idempotencyKey = some input.idempotencyKey)

instance (st : Store) (input : JobInput) : Decidable (uniqueViolation st input) := by
  unfold uniqueViolation; infer_instance

/-- SQLiteRepository.CreateJob: insert the row, mapping a UNIQUE
constraint failure to ErrDuplicateIdempotencyKey when the job carried a
non-empty idempotency key and to a generic error otherwise. -/
def CreateJob (st : Store) (input : JobInput) (now : Int) : Except CreateJobError Store :=
  if uniqueViolation st input then
    if input.idempotencyKey ≠ "" then
      .error (.duplicateIdempotencyKey input.tenantId input.idempotencyKey)
    else
      .error .uniqueConstraintUnexpected
  else
    .ok { st with jobs := st.jobs ++ [insertedRow input now] }

/-- GetJobByTenantAndIdempotencyKey: an empty key queries for NULL-key
rows, a non-empty key for rows with that exact key; the first matching
row is returned, or none. -/
def GetJobByTenantAndIdempotencyKey (st : Store) (tenantId idempotencyKey : String) :
    Option Job :=
  if idempotencyKey = "" then
    st.jobs.find? (fun r => r.tenantId = tenantId ∧ r.idempotencyKey = none)
  else
    st.jobs.find? (fun r => r.tenantId = tenantId ∧ r.idempotencyKey = some idempotencyKey)

/-- The WHERE clause of the lease SELECT: status = PENDING, or
status = RUNNING with lease_expires_at < now (a NULL lease_expires_at
makes the SQL comparison false). -/
def leasable (r : Job) (now : Int) : Bool :=
  match r.status, r.leaseExpiresAt with
  | .pending, _ => true
  | .running, some e => decide (e < now)
  | _, _ => false

/-- The SELECT with ORDER BY created_at ASC LIMIT 1: among the leasable
rows, the first row carrying the minimal created_at. -/
def selectLease (rows : List Job) (now : Int) : Option Job :=
  match rows with
  | [] => none
  | r :: rs =>
    if leasable r now then
      match selectLease rs now with
      | none => some r
      | some b => if b.createdAt < r.createdAt then some b else some r
    else
      selectLease rs now

/-- The column updates applied by the lease UPDATE statement and echoed
on the returned struct. -/
def leaseUpdate (r : Job) (leaseDuration now : Int) : Job :=
  { r with
      status := .running
      leasedAt := some now
      leaseExpiresAt := some (now + leaseDuration)
      updatedAt := now }

/-- SQLiteRepository.LeaseJob: in one transaction, select a leasable row
ordered by created_at and set status = RUNNING, leased_at = now,
lease_expires_at = now + leaseDuration, updated_at = now; return the
updated row, or none (leaving the store untouched) when no row
qualifies. -/
def LeaseJob (st : Store) (leaseDuration now : Int) : Option Job × Store :=
  match selectLease st.jobs now with
  | none => (none, st)
  | some r =>
    (some (leaseUpdate r leaseDuration now),
      { st with
          jobs := st.jobs.map (fun x =>
            if x.id = r.id then leaseUpdate x leaseDuration now else x) })

/-- SQLiteRepository.UpdateJobStatus: UPDATE jobs SET status, updated_at
WHERE id = ?.  No other column is touched and a missing id matches no
row (the Go code never checks RowsAffected, so that case returns
success). -/
def UpdateJobStatus (st : Store) (id : String) (status : JobStatus) (now : Int) : Store :=
  { st with
      jobs := st.jobs.map (fun r =>
        if r.id = id then { r with status := status, updatedAt := now } else r) }

/-- SQLiteRepository.IncrementRetryCount: UPDATE jobs SET
retry_count = retry_count + 1, updated_at WHERE id = ?.  A missing id
matches no row and still returns success. -/
def IncrementRetryCount (st : Store) (id : String) (now : Int) : Store :=
  { st with
      jobs := st.jobs.map (fun r =>
        if r.id = id then { r with retryCount := r.retryCount + 1, updatedAt := now } else r) }

/-- SQLiteRepository.GetRunningJobsCountByTenant. -/
def GetRunningJobsCountByTenant (st : Store) (tenantId : String) : Int :=
  ((st.jobs.filter (fun r => r.tenantId = tenantId ∧ r.status = .running)).length : Int)

/-- The DLQ record id built by MoveToDeadLetterQueue. -/
def dlqId (jobId : String) (now : Int) : String :=
  "dlq_" ++ jobId ++ "_" ++ toString now

/-- SQLiteRepository.MoveToDeadLetterQueue: one transaction inserting
the DLQ row and deleting the job row; a failure of the insert (the DLQ
primary key already taken) rolls the transaction back, leaving the
store unchanged. -/
def MoveToDeadLetterQueue (st : Store) (job : Job) (failureReason : String) (now : Int) :
    Except Unit Store :=
  if ∃ d ∈ st.deadLetterJobs, d.id = dlqId job.id now then
    .error ()
  else
    .ok { jobs := st.jobs.filter (fun r => r.id ≠ job.id)
          deadLetterJobs := st.deadLetterJobs ++
            [{ id := dlqId job.id now
               jobId := job.id
               tenantId := job.tenantId
               payload := job.payload
               failureReason := failureReason
               failedAt := now }] }

end SQLiteRepository

/-- The per-tenant submission window of the rate limiter. -/
structure SubmissionWindow where
  count : Int
  windowEnd : Int
deriving DecidableEq

/-- The rate limiter state: configuration plus the per-tenant windows
(the Go map modelled as an association list). -/
structure RateLimiter where
  maxConcurrentRunning : Int
  maxSubmissionsPerMinute : Int
  submissionWindows : List (String × SubmissionWindow)
deriving DecidableEq

/-- Rate-limiter rejection (service.ErrRateLimitExceeded). -/
inductive RateLimitError where
  | rateLimitExceeded
deriving DecidableEq

namespace RateLimiter

/-- Map lookup over the association list of windows. -/
def lookupWindow : List (String × SubmissionWindow) → String → Option SubmissionWindow
  | [], _ => none
  | (t, w) :: rest, tenantId =>
    if t = tenantId then some w else lookupWindow rest tenantId

/-- Map insert or replace over the association list of windows. -/
def setWindow : List (String × SubmissionWindow) → String → SubmissionWindow →
    List (String × SubmissionWindow)
  | [], tenantId, w => [(tenantId, w)]
  | (t, w0) :: rest, tenantId, w =>
    if t = tenantId then (t, w) :: rest else (t, w0) :: setWindow rest tenantId w

/-- RateLimiter.CheckSubmissionRate: with no window for the tenant, or
now strictly after the window end (Go time.After), open a fresh window
with count 1 ending one minute from now and succeed; otherwise reject
when the count has reached the per-minute limit, and else increment the
count.  On rejection the limiter is unchanged. -/
def CheckSubmissionRate (rl : RateLimiter) (tenantId : String) (now : Int) :
    Except RateLimitError RateLimiter :=
  match lookupWindow rl.submissionWindows tenantId with
  | none =>
    let fresh : SubmissionWindow := { count := 1, windowEnd := now + 60 }
    .ok { rl with submissionWindows := setWindow rl.submissionWindows tenantId fresh }
  | some w =>
    if w.windowEnd < now then
      let fresh : SubmissionWindow := { count := 1, windowEnd := now + 60 }
      .ok { rl with submissionWindows := setWindow rl.submissionWindows tenantId fresh }
    else if rl.maxSubmissionsPerMinute ≤ w.count then
      .error .rateLimitExceeded
    else
      let bumped : SubmissionWindow := { count := w.count + 1, windowEnd := w.windowEnd }
      .ok { rl with submissionWindows := setWindow rl.submissionWindows tenantId bumped }

/-- RateLimiter.CheckConcurrentLimit: reject when the measured running
count has reached maxConcurrentRunning. -/
def CheckConcurrentLimit (rl : RateLimiter) (currentRunning : Int) :
    Except RateLimitError Unit :=
  if rl.maxConcurrentRunning ≤ currentRunning then .error .rateLimitExceeded else .ok ()

end RateLimiter

/-- The process-local metric counters. -/
structure Metrics where
  totalJobs : Int
  completedJobs : Int
  failedJobs : Int
  retriedJobs : Int
deriving DecidableEq

namespace Metrics

def incrementTotalJobs (m : Metrics) : Metrics := { m with totalJobs := m.totalJobs + 1 }

def incrementCompletedJobs (m : Metrics) : Metrics :=
  { m with completedJobs := m.completedJobs + 1 }

def incrementFailedJobs (m : Metrics) : Metrics := { m with failedJobs := m.failedJobs + 1 }

def incrementRetriedJobs (m : Metrics) : Metrics :=
  { m with retriedJobs := m.retriedJobs + 1 }

end Metrics

/-- models.CreateJobRequest: the idempotency key is a plain string with
empty meaning absent, max_retries an optional integer. -/
structure CreateJobRequest where
  tenantId : String
  idempotencyKey : String
  payload : String
  maxRetries : Option Int
deriving DecidableEq

/-- Errors surfaced by JobService.CreateJob.  Read operations of the
store are modelled as total, so the only failures are the rate-limit
rejection and a create failure whose duplicate could not be
re-fetched. -/
inductive ServiceError where
  | rateLimitExceeded
  | createFailed
deriving DecidableEq

namespace JobService

/-- The fresh models.Job built at step 4 of the admission pipeline:
status PENDING, retry_count 0, max_retries from the request or the
default 3. -/
def newJobInput (req : CreateJobRequest) (freshId : String) : JobInput :=
  { id := freshId
    tenantId := req.tenantId
    idempotencyKey := req.idempotencyKey
    payload := req.payload
    status := .pending
    maxRetries := match req.maxRetries with | some k => k | none => 3
    retryCount := 0 }

/-- JobService.CreateJob, the admission pipeline: submission-rate check,
idempotency lookup (only for a non-empty key), concurrent-running cap,
insert, duplicate-key re-fetch, total_jobs increment.  freshId stands
for the UUID generated for the new job.  The whole mutable state
(store, limiter, metrics) is threaded and returned alongside the
result. -/
def CreateJob (st : Store) (rl : RateLimiter) (m : Metrics) (req : CreateJobRequest)
    (freshId : String) (now : Int) :
    Except ServiceError Job × Store × RateLimiter × Metrics :=
  match RateLimiter.CheckSubmissionRate rl req.tenantId now with
  | .error _ => (.error .rateLimitExceeded, st, rl, m)
  | .ok rl1 =>
    match
      if req.idempotencyKey = "" then none
      else SQLiteRepository.GetJobByTenantAndIdempotencyKey st req.tenantId req.idempotencyKey
    with
    | some existing => (.ok existing, st, rl1, m)
    | none =>
      match RateLimiter.CheckConcurrentLimit rl1
          (SQLiteRepository.GetRunningJobsCountByTenant st req.tenantId) with
      | .error _ => (.error .rateLimitExceeded, st, rl1, m)
      | .ok _ =>
        match SQLiteRepository.CreateJob st (newJobInput req freshId) now with
        | .ok st1 =>
          (.ok (SQLiteRepository.insertedRow (newJobInput req freshId) now), st1, rl1,
            m.incrementTotalJobs)
        | .error (.duplicateIdempotencyKey t k) =>
          match SQLiteRepository.GetJobByTenantAndIdempotencyKey st t k with
          | some existing => (.ok existing, st, rl1, m)
          | none => (.error .createFailed, st, rl1, m)
        | .error .uniqueConstraintUnexpected => (.error .createFailed, st, rl1, m)

end JobService

namespace WorkerService

/-- WorkerService.handleJobFailure: below the retry budget, bump the
retry count and reset the row to PENDING, counting a retried job;
otherwise move the row to the DLQ with the prefixed reason, counting a
failed job (a failed DLQ move is logged and leaves both the store and
the metrics unchanged). -/
def handleJobFailure (st : Store) (m : Metrics) (job : Job) (failureReason : String)
    (now : Int) : Store × Metrics :=
  if job.retryCount < job.maxRetries then
    (SQLiteRepository.UpdateJobStatus
        (SQLiteRepository.IncrementRetryCount st job.id now) job.id .pending now,
      m.incrementRetriedJobs)
  else
    match SQLiteRepository.MoveToDeadLetterQueue st job
        ("max retries exceeded: " ++ failureReason) now with
    | .ok st1 => (st1, m.incrementFailedJobs)
    | .error _ => (st, m)

/-- WorkerService.processJob: the placeholder handler fails exactly on
the payload "fail"; on success the row is set to DONE and
completed_jobs counted. -/
def processJob (st : Store) (m : Metrics) (job : Job) (now : Int) : Store × Metrics :=
  if job.payload = "fail" then
    handleJobFailure st m job ("payload is \x27fail\x27") now
  else
    (SQLiteRepository.UpdateJobStatus st job.id .done now, m.incrementCompletedJobs)

end WorkerService

end JobQueue

namespace JobQueue

namespace SQLiteRepository

theorem selectLease_eq_none {rows : List Job} {now : Int} :
    selectLease rows now = none ↔ ∀ r ∈ rows, leasable r now = false := by
  induction rows with
  | nil => simp [selectLease]
  | cons r rs ih =>
    by_cases h : leasable r now
    · cases hsel : selectLease rs now with
      | none => simp [selectLease, h, hsel]
      | some b => simp only [selectLease, h, if_true, hsel]; split <;> simp [h]
    · simp only [Bool.not_eq_true] at h
      simp [selectLease, h, ih]

theorem selectLease_mem {rows : List Job} {now : Int} :
    ∀ {j : Job}, selectLease rows now = some j → j ∈ rows ∧ leasable j now = true := by
  induction rows with
  | nil => intro j hsel; simp [selectLease] at hsel
  | cons r rs ih =>
    intro j hsel
    by_cases h : leasable r now
    · cases hrec : selectLease rs now with
      | none =>
        simp only [selectLease, h, if_true, hrec] at hsel
        cases hsel
        exact ⟨List.mem_cons_self _ _, h⟩
      | some b =>
        simp only [selectLease, h, if_true, hrec] at hsel
        rcases ih hrec with ⟨hmem, hleas⟩
        split at hsel
        · cases hsel; exact ⟨List.mem_cons_of_mem _ hmem, hleas⟩
        · cases hsel; exact ⟨List.mem_cons_self _ _, h⟩
    · simp only [Bool.not_eq_true] at h
      simp only [selectLease, h, Bool.false_eq_true, if_false] at hsel
      rcases ih hsel with ⟨hmem, hleas⟩
      exact ⟨List.mem_cons_of_mem _ hmem, hleas⟩

theorem selectLease_min {rows : List Job} {now : Int} :
    ∀ {j : Job}, selectLease rows now = some j →
      ∀ r ∈ rows, leasable r now = true → j.createdAt ≤ r.createdAt := by
  induction rows with
  | nil => intro j hsel; simp [selectLease] at hsel
  | cons r rs ih =>
    intro j hsel x hx hxleas
    by_cases h : leasable r now
    · cases hrec : selectLease rs now with
      | none =>
        simp only [selectLease, h, if_true, hrec] at hsel
        cases hsel
        rcases List.mem_cons.mp hx with hx | hx
        · subst hx; exact le_refl _
        · have hfalse := selectLease_eq_none.mp hrec x hx
          rw [hfalse] at hxleas; cases hxleas
      | some b =>
        simp only [selectLease, h, if_true, hrec] at hsel
        rcases List.mem_cons.mp hx with hx | hx
        · subst hx
          split at hsel
          · cases hsel; omega
          · cases hsel; exact le_refl _
        · have hb := ih hrec x hx hxleas
          split at hsel
          · cases hsel; exact hb
          · cases hsel; omega
    · simp only [Bool.not_eq_true] at h
      simp only [selectLease, h, Bool.false_eq_true, if_false] at hsel
      rcases List.mem_cons.mp hx with hx | hx
      · subst hx; rw [h] at hxleas; cases hxleas
      · exact ih hsel x hx hxleas

end SQLiteRepository

open SQLiteRepository RateLimiter in
/-- C1: For every call to LeaseJob(leaseDuration) at time now: if at
least one job row has status PENDING or status RUNNING with an expired
lease (lease_expires_at < now), the call returns a qualifying row of
least created_at, updated so that status = RUNNING, leased_at = now,
lease_expires_at = now + leaseDuration and updated_at = now, and the
store applies the same update to that row; if no row qualifies the call
returns none and no row is modified. -/
theorem LeaseJob_spec (st : Store) (leaseDuration now : Int) :
    ((∀ r ∈ st.jobs, leasable r now = false) →
      LeaseJob st leaseDuration now = (none, st))
    ∧ ((∃ r ∈ st.jobs, leasable r now = true) →
      ∃ j, (LeaseJob st leaseDuration now).1 = some j)
    ∧ (∀ j, (LeaseJob st leaseDuration now).1 = some j →
      ∃ r ∈ st.jobs, leasable r now = true
        ∧ (∀ x ∈ st.jobs, leasable x now = true → r.createdAt ≤ x.createdAt)
        ∧ j = leaseUpdate r leaseDuration now
        ∧ j.status = .running ∧ j.leasedAt = some now
        ∧ j.leaseExpiresAt = some (now + leaseDuration) ∧ j.updatedAt = now
        ∧ (LeaseJob st leaseDuration now).2 =
            { st with jobs := st.jobs.map (fun x =>
                if x.id = r.id then leaseUpdate x leaseDuration now else x) }) := by
  refine ⟨?_, ?_, ?_⟩
  · intro h
    simp [LeaseJob, selectLease_eq_none.mpr h]
  · intro h
    cases hsel : selectLease st.jobs now with
    | none =>
      rcases h with ⟨r, hr, hleas⟩
      have := selectLease_eq_none.mp hsel r hr
      rw [this] at hleas; cases hleas
    | some r => exact ⟨leaseUpdate r leaseDuration now, by simp [LeaseJob, hsel]⟩
  · intro j hj
    cases hsel : selectLease st.jobs now with
    | none => simp [LeaseJob, hsel] at hj
    | some r =>
      simp only [LeaseJob, hsel] at hj
      cases hj
      rcases selectLease_mem hsel with ⟨hmem, hleas⟩
      exact ⟨r, hmem, hleas, selectLease_min hsel, rfl, rfl, rfl, rfl, rfl,
        by simp [LeaseJob, hsel]⟩

open SQLiteRepository in
/-- Witness for LeaseJob_spec: a two-row store in which the older
pending row is leased. -/
theorem LeaseJob_spec_witness :
    (∃ r ∈ (⟨[⟨"a", "t1", none, "p", .pending, 3, 0, none, none, 10, 10⟩,
              ⟨"b", "t1", none, "p", .pending, 3, 0, none, none, 5, 5⟩], []⟩ : Store).jobs,
        leasable r 100 = true) ∧
    ∃ j, (LeaseJob (⟨[⟨"a", "t1", none, "p", .pending, 3, 0, none, none, 10, 10⟩,
              ⟨"b", "t1", none, "p", .pending, 3, 0, none, none, 5, 5⟩], []⟩ : Store) 30 100).1 =
        some j :=
  ⟨by decide,
    (LeaseJob_spec (⟨[⟨"a", "t1", none, "p", .pending, 3, 0, none, none, 10, 10⟩,
        ⟨"b", "t1", none, "p", .pending, 3, 0, none, none, 5, 5⟩], []⟩ : Store) 30 100).2.1
      (by decide)⟩

/-- Rows surviving a conditional row update come from the original
table, either untouched or rewritten by the update. -/
theorem mem_map_ite {l : List Job} {p : Job → Prop} [DecidablePred p] {f : Job → Job} {r : Job}
    (h : r ∈ l.map fun x => if p x then f x else x) :
    ∃ x ∈ l, (p x ∧ r = f x) ∨ r = x := by
  rcases List.mem_map.mp h with ⟨x, hx, hfx⟩
  by_cases hp : p x
  · exact ⟨x, hx, Or.inl ⟨hp, by rw [← hfx, if_pos hp]⟩⟩
  · exact ⟨x, hx, Or.inr (by rw [← hfx, if_neg hp])⟩

/-- A conditional row update whose condition matches no row leaves the
table unchanged. -/
theorem map_ite_eq_self {l : List Job} {p : Job → Prop} [DecidablePred p] {f : Job → Job}
    (h : ∀ x ∈ l, ¬ p x) :
    (l.map fun x => if p x then f x else x) = l := by
  induction l with
  | nil => rfl
  | cons a t ih =>
    simp only [List.map_cons]
    rw [if_neg (h a (List.mem_cons_self _ _)), ih (fun x hx => h x (List.mem_cons_of_mem _ hx))]

open SQLiteRepository in
/-- C9: For an id not present in the jobs table, UpdateJobStatus and
IncrementRetryCount return success and leave the store unchanged; the
Go code issues a bare UPDATE and never inspects RowsAffected, so a late
write for a job already moved to the DLQ silently does nothing (both
are modelled as total functions because the UPDATE itself reports no
error). -/
theorem update_missing_id_noop (st : Store) (id : String) (status : JobStatus) (now : Int)
    (h : ∀ r ∈ st.jobs, r.id ≠ id) :
    UpdateJobStatus st id status now = st ∧ IncrementRetryCount st id now = st := by
  constructor
  · show ({ st with jobs := _ } : Store) = st
    rw [map_ite_eq_self h]
  · show ({ st with jobs := _ } : Store) = st
    rw [map_ite_eq_self h]

open SQLiteRepository in
/-- Witness for update_missing_id_noop: a one-row store and a foreign
id. -/
theorem update_missing_id_noop_witness :
    UpdateJobStatus (⟨[⟨"a", "t1", none, "p", .pending, 3, 0, none, none, 10, 10⟩], []⟩ : Store)
        "zzz" .done 40 =
      (⟨[⟨"a", "t1", none, "p", .pending, 3, 0, none, none, 10, 10⟩], []⟩ : Store) ∧
    IncrementRetryCount (⟨[⟨"a", "t1", none, "p", .pending, 3, 0, none, none, 10, 10⟩], []⟩ : Store)
        "zzz" 40 =
      (⟨[⟨"a", "t1", none, "p", .pending, 3, 0, none, none, 10, 10⟩], []⟩ : Store) :=
  update_missing_id_noop
    (⟨[⟨"a", "t1", none, "p", .pending, 3, 0, none, none, 10, 10⟩], []⟩ : Store)
    "zzz" .done 40 (by decide)

open SQLiteRepository WorkerService in
/-- C4 counterexample: a RUNNING row with both lease timestamps set is
processed successfully; the resulting row is DONE (out of RUNNING) yet
still carries both lease timestamps, because UpdateJobStatus only
writes status and updated_at. -/
theorem done_row_keeps_lease_counterexample :
    (processJob
        (⟨[⟨"c", "t1", none, "q", .running, 3, 0, some 1, some 31, 1, 1⟩], []⟩ : Store)
        (⟨0, 0, 0, 0⟩ : Metrics)
        (⟨"c", "t1", none, "q", .running, 3, 0, some 1, some 31, 1, 1⟩ : Job) 40).1.jobs =
      [⟨"c", "t1", none, "q", .done, 3, 0, some 1, some 31, 1, 40⟩] ∧
    (⟨"c", "t1", none, "q", .done, 3, 0, some 1, some 31, 1, 40⟩ : Job).status ≠ .running ∧
    (⟨"c", "t1", none, "q", .done, 3, 0, some 1, some 31, 1, 40⟩ : Job).leasedAt ≠ none ∧
    (⟨"c", "t1", none, "q", .done, 3, 0, some 1, some 31, 1, 40⟩ : Job).leaseExpiresAt ≠ none := by
  decide

open SQLiteRepository WorkerService in
/-- C4 amended: transitions out of RUNNING (UpdateJobStatus, and every
worker outcome) leave leased_at and lease_expires_at unchanged on every
surviving row — the lease timestamps are never cleared, rather than
being absent outside RUNNING. -/
theorem transitions_keep_lease_fields_amended :
    (∀ (st : Store) (id : String) (status : JobStatus) (now : Int),
      ∀ r ∈ (UpdateJobStatus st id status now).jobs,
        ∃ x ∈ st.jobs, r.id = x.id ∧ r.leasedAt = x.leasedAt ∧
          r.leaseExpiresAt = x.leaseExpiresAt)
    ∧ (∀ (st : Store) (m : Metrics) (job : Job) (now : Int),
      ∀ r ∈ (processJob st m job now).1.jobs,
        ∃ x ∈ st.jobs, r.id = x.id ∧ r.leasedAt = x.leasedAt ∧
          r.leaseExpiresAt = x.leaseExpiresAt) := by
  have hupd : ∀ (st : Store) (id : String) (status : JobStatus) (now : Int),
      ∀ r ∈ (UpdateJobStatus st id status now).jobs,
        ∃ x ∈ st.jobs, r.id = x.id ∧ r.leasedAt = x.leasedAt ∧
          r.leaseExpiresAt = x.leaseExpiresAt := by
    intro st id status now r hr
    rcases mem_map_ite hr with ⟨x, hx, ⟨hp, hcase⟩ | hcase⟩ <;>
      exact ⟨x, hx, by rw [hcase], by rw [hcase], by rw [hcase]⟩
  have hinc : ∀ (st : Store) (id : String) (now : Int),
      ∀ r ∈ (IncrementRetryCount st id now).jobs,
        ∃ x ∈ st.jobs, r.id = x.id ∧ r.leasedAt = x.leasedAt ∧
          r.leaseExpiresAt = x.leaseExpiresAt := by
    intro st id now r hr
    rcases mem_map_ite hr with ⟨x, hx, ⟨hp, hcase⟩ | hcase⟩ <;>
      exact ⟨x, hx, by rw [hcase], by rw [hcase], by rw [hcase]⟩
  refine ⟨hupd, ?_⟩
  intro st m job now r hr
  unfold processJob at hr
  split at hr
  · unfold handleJobFailure at hr
    split at hr
    · rcases hupd _ _ _ _ r hr with ⟨x1, hx1, hid1, hl1, he1⟩
      rcases hinc _ _ _ x1 hx1 with ⟨x2, hx2, hid2, hl2, he2⟩
      exact ⟨x2, hx2, hid1.trans hid2, hl1.trans hl2, he1.trans he2⟩
    · split at hr
      · next st1 hmv =>
        unfold SQLiteRepository.MoveToDeadLetterQueue at hmv
        split at hmv
        · cases hmv
        · cases hmv
          exact ⟨r, List.mem_of_mem_filter hr, rfl, rfl, rfl⟩
      · exact ⟨r, hr, rfl, rfl, rfl⟩
  · exact hupd _ _ _ _ r hr

open SQLiteRepository WorkerService in
/-- Witness for transitions_keep_lease_fields_amended on a one-row
store. -/
theorem transitions_keep_lease_fields_amended_witness :
    ∃ x ∈ (⟨[⟨"c", "t1", none, "q", .running, 3, 0, some 1, some 31, 1, 1⟩], []⟩ : Store).jobs,
      (⟨"c", "t1", none, "q", .done, 3, 0, some 1, some 31, 1, 40⟩ : Job).id = x.id ∧
      (⟨"c", "t1", none, "q", .done, 3, 0, some 1, some 31, 1, 40⟩ : Job).leasedAt = x.leasedAt ∧
      (⟨"c", "t1", none, "q", .done, 3, 0, some 1, some 31, 1, 40⟩ : Job).leaseExpiresAt =
        x.leaseExpiresAt :=
  transitions_keep_lease_fields_amended.2
    (⟨[⟨"c", "t1", none, "q", .running, 3, 0, some 1, some 31, 1, 1⟩], []⟩ : Store)
    (⟨0, 0, 0, 0⟩ : Metrics)
    (⟨"c", "t1", none, "q", .running, 3, 0, some 1, some 31, 1, 1⟩ : Job) 40
    (⟨"c", "t1", none, "q", .done, 3, 0, some 1, some 31, 1, 40⟩ : Job) (by decide)

open SQLiteRepository WorkerService in
/-- C3: For every leased job the worker processes: on handler success
(payload other than "fail") the job is set to DONE and completed_jobs
is incremented; on handler failure with retry_count < max_retries the
retry count is bumped, then the status is reset to PENDING, and
retried_jobs is incremented; on handler failure with
retry_count >= max_retries the job is moved to the DLQ with a failure
reason prefixed by "max retries exceeded: " and failed_jobs is
incremented (so max_retries = 0 sends a first failure directly to the
DLQ with no PENDING reset). -/
theorem processJob_outcome_policy (st : Store) (m : Metrics) (job : Job) (now : Int) :
    (job.payload ≠ "fail" →
      processJob st m job now =
        (UpdateJobStatus st job.id .done now, m.incrementCompletedJobs))
    ∧ (job.payload = "fail" → job.retryCount < job.maxRetries →
      processJob st m job now =
        (UpdateJobStatus (IncrementRetryCount st job.id now) job.id .pending now,
          m.incrementRetriedJobs))
    ∧ (job.payload = "fail" → job.maxRetries ≤ job.retryCount →
      (∀ st1, MoveToDeadLetterQueue st job
            ("max retries exceeded: payload is \x27fail\x27") now = .ok st1 →
          processJob st m job now = (st1, m.incrementFailedJobs)
          ∧ st1.deadLetterJobs = st.deadLetterJobs ++
              [⟨dlqId job.id now, job.id, job.tenantId, job.payload,
                "max retries exceeded: payload is \x27fail\x27", now⟩]
          ∧ st1.jobs = st.jobs.filter (fun r => r.id ≠ job.id))
      ∧ (∀ e, MoveToDeadLetterQueue st job
            ("max retries exceeded: payload is \x27fail\x27") now = .error e →
          processJob st m job now = (st, m))) := by
  refine ⟨?_, ?_, ?_⟩
  · intro hp
    simp [processJob, hp]
  · intro hp hretry
    simp [processJob, handleJobFailure, hp, hretry]
  · intro hp hmax
    have hnotlt : ¬ job.retryCount < job.maxRetries := by omega
    constructor
    · intro st1 hmv
      refine ⟨by simp [processJob, handleJobFailure, hp, hnotlt, hmv], ?_, ?_⟩
      · unfold MoveToDeadLetterQueue at hmv
        split at hmv
        · cases hmv
        · cases hmv; rfl
      · unfold MoveToDeadLetterQueue at hmv
        split at hmv
        · cases hmv
        · cases hmv; rfl
    · intro e hmv
      simp [processJob, handleJobFailure, hp, hnotlt, hmv]

open SQLiteRepository WorkerService in
/-- Witness for processJob_outcome_policy: a failing job below its
retry budget is bumped and reset to PENDING. -/
theorem processJob_outcome_policy_witness :
    processJob (⟨[⟨"c", "t1", none, "fail", .running, 3, 0, some 1, some 31, 1, 1⟩], []⟩ : Store)
        (⟨0, 0, 0, 0⟩ : Metrics)
        (⟨"c", "t1", none, "fail", .running, 3, 0, some 1, some 31, 1, 1⟩ : Job) 40 =
      (UpdateJobStatus
          (IncrementRetryCount
            (⟨[⟨"c", "t1", none, "fail", .running, 3, 0, some 1, some 31, 1, 1⟩], []⟩ : Store)
            "c" 40)
          "c" .pending 40,
        Metrics.incrementRetriedJobs (⟨0, 0, 0, 0⟩ : Metrics)) :=
  (processJob_outcome_policy
      (⟨[⟨"c", "t1", none, "fail", .running, 3, 0, some 1, some 31, 1, 1⟩], []⟩ : Store)
      (⟨0, 0, 0, 0⟩ : Metrics)
      (⟨"c", "t1", none, "fail", .running, 3, 0, some 1, some 31, 1, 1⟩ : Job) 40).2.1
    (by decide) (by decide)

open RateLimiter in
/-- C5 counterexample: a tenant whose window of limit-many admissions
ends exactly at the current instant is rejected, not admitted — Go
time.After is strict, so at now = windowEnd the window has not yet
elapsed and the count check still applies. -/
theorem submission_at_window_end_counterexample :
    CheckSubmissionRate (⟨5, 10, [("t2", ⟨10, 100⟩)]⟩ : RateLimiter) "t2" 100 =
      .error .rateLimitExceeded := by
  decide

open RateLimiter in
/-- C5 amended: CheckSubmissionRate implements a fixed 60-second
window: with no window for the tenant, or with the current time
strictly after the window end, it opens a new window ending 60 s from
now with count 1 and succeeds; at any time up to and including the
window end it fails with RateLimitExceeded when count has reached the
limit and otherwise increments the count and succeeds.  A call at a
time exactly equal to the window end is still inside the window. -/
theorem CheckSubmissionRate_spec (rl : RateLimiter) (tenantId : String) (now : Int) :
    (lookupWindow rl.submissionWindows tenantId = none →
      CheckSubmissionRate rl tenantId now =
        .ok { rl with submissionWindows :=
                setWindow rl.submissionWindows tenantId ⟨1, now + 60⟩ })
    ∧ ∀ w, lookupWindow rl.submissionWindows tenantId = some w →
        (w.windowEnd < now →
          CheckSubmissionRate rl tenantId now =
            .ok { rl with submissionWindows :=
                    setWindow rl.submissionWindows tenantId ⟨1, now + 60⟩ })
        ∧ (now ≤ w.windowEnd → rl.maxSubmissionsPerMinute ≤ w.count →
          CheckSubmissionRate rl tenantId now = .error .rateLimitExceeded)
        ∧ (now ≤ w.windowEnd → w.count < rl.maxSubmissionsPerMinute →
          CheckSubmissionRate rl tenantId now =
            .ok { rl with submissionWindows :=
                    setWindow rl.submissionWindows tenantId ⟨w.count + 1, w.windowEnd⟩ }) := by
  constructor
  · intro hnone
    simp [CheckSubmissionRate, hnone]
  · intro w hw
    refine ⟨?_, ?_, ?_⟩
    · intro helapsed
      simp [CheckSubmissionRate, hw, helapsed]
    · intro hin hfull
      have hnot : ¬ w.windowEnd < now := by omega
      simp [CheckSubmissionRate, hw, hnot, hfull]
    · intro hin hroom
      have hnot : ¬ w.windowEnd < now := by omega
      have hnotfull : ¬ rl.maxSubmissionsPerMinute ≤ w.count := by omega
      simp [CheckSubmissionRate, hw, hnot, hnotfull]

open RateLimiter in
/-- Witness for CheckSubmissionRate_spec: a window with one remaining
slot admits the call and bumps the count. -/
theorem CheckSubmissionRate_spec_witness :
    CheckSubmissionRate (⟨5, 10, [("t2", ⟨9, 100⟩)]⟩ : RateLimiter) "t2" 100 =
      .ok (⟨5, 10, [("t2", ⟨10, 100⟩)]⟩ : RateLimiter) :=
  ((CheckSubmissionRate_spec (⟨5, 10, [("t2", ⟨9, 100⟩)]⟩ : RateLimiter) "t2" 100).2
      ⟨9, 100⟩ (by decide)).2.2 (by decide) (by decide)

open SQLiteRepository RateLimiter in
/-- C6: A CreateJob request carrying a non-empty idempotency key whose
tenant/key lookup returns an existing job (once past the submission
gate) gets that existing job back unchanged: the store is untouched (no
new row), the returned id and payload are those of the existing row,
and total_jobs is not incremented. -/
theorem createJob_idempotent_return (st : Store) (rl : RateLimiter) (m : Metrics)
    (req : CreateJobRequest) (freshId : String) (now : Int) (rl1 : RateLimiter)
    (existing : Job)
    (hkey : req.idempotencyKey ≠ "")
    (hrate : CheckSubmissionRate rl req.tenantId now = .ok rl1)
    (hfound : GetJobByTenantAndIdempotencyKey st req.tenantId req.idempotencyKey =
      some existing) :
    JobService.CreateJob st rl m req freshId now = (.ok existing, st, rl1, m) := by
  unfold JobService.CreateJob
  rw [hrate]
  rw [if_neg hkey, hfound]

open SQLiteRepository RateLimiter in
/-- Witness for createJob_idempotent_return: a second submission with
the same key and a different payload returns the stored job. -/
theorem createJob_idempotent_return_witness :
    JobService.CreateJob
        (⟨[⟨"orig", "t1", some "k1", "A", .pending, 3, 0, none, none, 10, 10⟩], []⟩ : Store)
        (⟨5, 10, []⟩ : RateLimiter) (⟨1, 0, 0, 0⟩ : Metrics)
        (⟨"t1", "k1", "B", none⟩ : CreateJobRequest) "fresh" 50 =
      (.ok (⟨"orig", "t1", some "k1", "A", .pending, 3, 0, none, none, 10, 10⟩ : Job),
        (⟨[⟨"orig", "t1", some "k1", "A", .pending, 3, 0, none, none, 10, 10⟩], []⟩ : Store),
        (⟨5, 10, [("t1", ⟨1, 110⟩)]⟩ : RateLimiter), (⟨1, 0, 0, 0⟩ : Metrics)) :=
  createJob_idempotent_return
    (⟨[⟨"orig", "t1", some "k1", "A", .pending, 3, 0, none, none, 10, 10⟩], []⟩ : Store)
    (⟨5, 10, []⟩ : RateLimiter) (⟨1, 0, 0, 0⟩ : Metrics)
    (⟨"t1", "k1", "B", none⟩ : CreateJobRequest) "fresh" 50
    (⟨5, 10, [("t1", ⟨1, 110⟩)]⟩ : RateLimiter)
    (⟨"orig", "t1", some "k1", "A", .pending, 3, 0, none, none, 10, 10⟩ : Job)
    (by decide) (by decide) (by decide)

open SQLiteRepository in
/-- C7: With a fresh job id, the store CreateJob fails with
DuplicateIdempotencyKey(tenant, key) exactly when the job carries a
non-empty idempotency key already present for the same tenant; an empty
key is stored as NULL and the insert always succeeds, so keyless jobs
never conflict. -/
theorem CreateJob_duplicate_key_spec (st : Store) (input : JobInput) (now : Int)
    (hfresh : ∀ r ∈ st.jobs, r.id ≠ input.id) :
    (CreateJob st input now =
        .error (.duplicateIdempotencyKey input.tenantId input.idempotencyKey)
      ↔ input.idempotencyKey ≠ "" ∧
        ∃ r ∈ st.jobs, r.tenantId = input.tenantId ∧
          r.idempotencyKey = some input.idempotencyKey)
    ∧ (input.idempotencyKey = "" →
      CreateJob st input now = .ok { st with jobs := st.jobs ++ [insertedRow input now] }
        ∧ (insertedRow input now).idempotencyKey = none) := by
  have hid : ¬ ∃ r ∈ st.jobs, r.id = input.id := by
    rintro ⟨r, hr, hre⟩; exact hfresh r hr hre
  constructor
  · constructor
    · intro herr
      unfold CreateJob at herr
      split at herr
      · next hviol =>
        split at herr
        · next hkey =>
          rcases hviol with hviol | hviol
          · exact absurd hviol hid
          · exact ⟨hkey, hviol.2⟩
        · cases herr
      · cases herr
    · rintro ⟨hkey, hclash⟩
      have hviol : uniqueViolation st input := Or.inr ⟨hkey, hclash⟩
      unfold CreateJob
      rw [if_pos hviol, if_pos hkey]
  · intro hkey
    have hnoviol : ¬ uniqueViolation st input := by
      rintro (hviol | hviol)
      · exact hid hviol
      · exact hviol.1 hkey
    constructor
    · unfold CreateJob
      rw [if_neg hnoviol]
    · simp [insertedRow, hkey]

open SQLiteRepository in
/-- Witness for CreateJob_duplicate_key_spec: a keyed insert colliding
with a stored key fails with the duplicate error, while a keyless
insert into the same store succeeds with a NULL key. -/
theorem CreateJob_duplicate_key_spec_witness :
    CreateJob (⟨[⟨"orig", "t1", some "k1", "A", .pending, 3, 0, none, none, 10, 10⟩], []⟩ : Store)
        (⟨"fresh", "t1", "k1", "B", .pending, 3, 0⟩ : JobInput) 50 =
      .error (.duplicateIdempotencyKey "t1" "k1") ∧
    CreateJob (⟨[⟨"orig", "t1", some "k1", "A", .pending, 3, 0, none, none, 10, 10⟩], []⟩ : Store)
        (⟨"fresh2", "t1", "", "C", .pending, 3, 0⟩ : JobInput) 50 =
      .ok (⟨[⟨"orig", "t1", some "k1", "A", .pending, 3, 0, none, none, 10, 10⟩,
             ⟨"fresh2", "t1", none, "C", .pending, 3, 0, none, none, 50, 50⟩], []⟩ : Store) :=
  ⟨(CreateJob_duplicate_key_spec
        (⟨[⟨"orig", "t1", some "k1", "A", .pending, 3, 0, none, none, 10, 10⟩], []⟩ : Store)
        (⟨"fresh", "t1", "k1", "B", .pending, 3, 0⟩ : JobInput) 50 (by decide)).1.mpr
      (by decide),
    ((CreateJob_duplicate_key_spec
        (⟨[⟨"orig", "t1", some "k1", "A", .pending, 3, 0, none, none, 10, 10⟩], []⟩ : Store)
        (⟨"fresh2", "t1", "", "C", .pending, 3, 0⟩ : JobInput) 50 (by decide)).2 rfl).1⟩

open SQLiteRepository in
/-- C8: MoveToDeadLetterQueue runs as one transaction: on success the
DLQ gains exactly one row carrying the original job id, its tenant and
payload, the given failure reason and failed_at = now, and every row
with the job id is deleted from the jobs table; the only failure (the
DLQ primary key already taken) commits nothing, the transaction being
rolled back so the caller keeps the unchanged store.  The move never
makes a job id live in both tables: any id live in both afterwards was
already live in both before. -/
theorem MoveToDLQ_spec (st : Store) (job : Job) (reason : String) (now : Int) :
    (∀ st1, MoveToDeadLetterQueue st job reason now = .ok st1 →
      st1.deadLetterJobs = st.deadLetterJobs ++
          [⟨dlqId job.id now, job.id, job.tenantId, job.payload, reason, now⟩]
      ∧ st1.jobs = st.jobs.filter (fun r => r.id ≠ job.id)
      ∧ (∀ r ∈ st1.jobs, r.id ≠ job.id)
      ∧ (∃ d ∈ st1.deadLetterJobs, d.jobId = job.id ∧ d.tenantId = job.tenantId ∧
          d.payload = job.payload ∧ d.failureReason = reason ∧ d.failedAt = now)
      ∧ (∀ i, ((∃ r ∈ st1.jobs, r.id = i) ∧ ∃ d ∈ st1.deadLetterJobs, d.jobId = i) →
          ((∃ r ∈ st.jobs, r.id = i) ∧ ∃ d ∈ st.deadLetterJobs, d.jobId = i)))
    ∧ (MoveToDeadLetterQueue st job reason now = .error () ↔
      ∃ d ∈ st.deadLetterJobs, d.id = dlqId job.id now) := by
  constructor
  · intro st1 hmv
    unfold MoveToDeadLetterQueue at hmv
    split at hmv
    · cases hmv
    · cases hmv
      refine ⟨rfl, rfl, ?_, ?_, ?_⟩
      · intro r hr
        simp only [List.mem_filter, decide_eq_true_eq] at hr
        exact hr.2
      · exact ⟨⟨dlqId job.id now, job.id, job.tenantId, job.payload, reason, now⟩,
          List.mem_append_right _ (List.mem_singleton_self _), rfl, rfl, rfl, rfl, rfl⟩
      · rintro i ⟨⟨r, hr, hri⟩, ⟨d, hd, hdi⟩⟩
        simp only [List.mem_filter, decide_eq_true_eq] at hr
        rcases List.mem_append.mp hd with hd | hd
        · exact ⟨⟨r, hr.1, hri⟩, ⟨d, hd, hdi⟩⟩
        · rcases List.mem_singleton.mp hd with rfl
          simp only at hdi
          rw [← hdi] at hri
          exact absurd hri hr.2
  · constructor
    · intro herr
      unfold MoveToDeadLetterQueue at herr
      split at herr
      · next hdup => exact hdup
      · cases herr
    · intro hdup
      unfold MoveToDeadLetterQueue
      rw [if_pos hdup]

open SQLiteRepository in
/-- Witness for MoveToDLQ_spec: moving a one-row store to the DLQ. -/
theorem MoveToDLQ_spec_witness :
    (⟨[], [⟨"dlq_c_40", "c", "t1", "q", "boom", 40⟩]⟩ : Store).deadLetterJobs =
        ([] : List DeadLetterJob) ++ [⟨"dlq_c_40", "c", "t1", "q", "boom", 40⟩] ∧
    (⟨[], [⟨"dlq_c_40", "c", "t1", "q", "boom", 40⟩]⟩ : Store).jobs =
        ([⟨"c", "t1", none, "q", .running, 3, 0, some 1, some 31, 1, 1⟩] : List Job).filter
          (fun r => r.id ≠ "c") ∧
    (∀ r ∈ (⟨[], [⟨"dlq_c_40", "c", "t1", "q", "boom", 40⟩]⟩ : Store).jobs, r.id ≠ "c") ∧
    (∃ d ∈ (⟨[], [⟨"dlq_c_40", "c", "t1", "q", "boom", 40⟩]⟩ : Store).deadLetterJobs,
      d.jobId = "c" ∧ d.tenantId = "t1" ∧ d.payload = "q" ∧ d.failureReason = "boom" ∧
      d.failedAt = 40) ∧
    (∀ i, ((∃ r ∈ (⟨[], [⟨"dlq_c_40", "c", "t1", "q", "boom", 40⟩]⟩ : Store).jobs, r.id = i) ∧
        ∃ d ∈ (⟨[], [⟨"dlq_c_40", "c", "t1", "q", "boom", 40⟩]⟩ : Store).deadLetterJobs,
          d.jobId = i) →
      ((∃ r ∈ ([⟨"c", "t1", none, "q", .running, 3, 0, some 1, some 31, 1, 1⟩] : List Job),
          r.id = i) ∧
        ∃ d ∈ ([] : List DeadLetterJob), d.jobId = i)) :=
  (MoveToDLQ_spec
      (⟨[⟨"c", "t1", none, "q", .running, 3, 0, some 1, some 31, 1, 1⟩], []⟩ : Store)
      (⟨"c", "t1", none, "q", .running, 3, 0, some 1, some 31, 1, 1⟩ : Job) "boom" 40).1
    (⟨[], [⟨"dlq_c_40", "c", "t1", "q", "boom", 40⟩]⟩ : Store) (by decide)

namespace SQLiteRepository

/-- A successful repository insert appends exactly the inserted row. -/
theorem CreateJob_ok_store {st : Store} {input : JobInput} {now : Int} {st1 : Store}
    (h : CreateJob st input now = .ok st1) :
    st1 = { st with jobs := st.jobs ++ [insertedRow input now] } := by
  unfold CreateJob at h
  split at h
  · split at h <;> cases h
  · cases h; rfl

end SQLiteRepository

namespace RateLimiter

/-- Looking up a tenant right after writing its window returns that
window. -/
theorem lookupWindow_setWindow (l : List (String × SubmissionWindow)) (t : String)
    (w : SubmissionWindow) : lookupWindow (setWindow l t w) t = some w := by
  induction l with
  | nil => simp [setWindow, lookupWindow]
  | cons p rest ih =>
    obtain ⟨t0, w0⟩ := p
    by_cases h : t0 = t
    · simp [setWindow, lookupWindow, h]
    · simp [setWindow, lookupWindow, h, ih]

/-- A successful submission-rate check leaves the tenant with a window
that either is fresh (count 1, ending 60 s from now) or is the previous
window with its count advanced by one. -/
theorem CheckSubmissionRate_ok_window {rl : RateLimiter} {tenantId : String} {now : Int}
    {rl1 : RateLimiter} (h : CheckSubmissionRate rl tenantId now = .ok rl1) :
    ∃ w1, lookupWindow rl1.submissionWindows tenantId = some w1 ∧
      ((w1.count = 1 ∧ w1.windowEnd = now + 60) ∨
        ∃ w, lookupWindow rl.submissionWindows tenantId = some w ∧ now ≤ w.windowEnd ∧
          w.count < rl.maxSubmissionsPerMinute ∧ w1.count = w.count + 1 ∧
          w1.windowEnd = w.windowEnd) := by
  unfold CheckSubmissionRate at h
  split at h
  · cases h
    exact ⟨⟨1, now + 60⟩, lookupWindow_setWindow _ _ _, Or.inl ⟨rfl, rfl⟩⟩
  · next w hw =>
    split at h
    · next helapsed =>
      cases h
      exact ⟨⟨1, now + 60⟩, lookupWindow_setWindow _ _ _, Or.inl ⟨rfl, rfl⟩⟩
    · next hin =>
      split at h
      · cases h
      · next hroom =>
        cases h
        exact ⟨⟨w.count + 1, w.windowEnd⟩, lookupWindow_setWindow _ _ _,
          Or.inr ⟨w, hw, by omega, by omega, rfl, rfl⟩⟩

end RateLimiter

namespace JobService

/-- The store after the admission pipeline is either unchanged or has
exactly the freshly built job appended. -/
theorem CreateJob_store_cases (st : Store) (rl : RateLimiter) (m : Metrics)
    (req : CreateJobRequest) (freshId : String) (now : Int) :
    (CreateJob st rl m req freshId now).2.1 = st ∨
    (CreateJob st rl m req freshId now).2.1 =
      { st with jobs := st.jobs ++
          [SQLiteRepository.insertedRow (newJobInput req freshId) now] } := by
  unfold CreateJob
  split
  · exact Or.inl rfl
  · split
    · exact Or.inl rfl
    · split
      · exact Or.inl rfl
      · split
        · next st1 hok => exact Or.inr (SQLiteRepository.CreateJob_ok_store hok)
        · split
          · exact Or.inl rfl
          · exact Or.inl rfl
        · exact Or.inl rfl

/-- Once past the submission gate, every outcome of the admission
pipeline carries the advanced limiter state. -/
theorem CreateJob_limiter (st : Store) (rl : RateLimiter) (m : Metrics)
    (req : CreateJobRequest) (freshId : String) (now : Int) (rl1 : RateLimiter)
    (hrate : RateLimiter.CheckSubmissionRate rl req.tenantId now = .ok rl1) :
    (CreateJob st rl m req freshId now).2.2.1 = rl1 := by
  unfold CreateJob
  rw [hrate]
  split
  · next h => cases h
  · next h =>
    cases h
    split
    · rfl
    · split
      · rfl
      · split
        · rfl
        · split
          · rfl
          · rfl
        · rfl

end JobService

/-- C2 counterexample: a CreateJob request may carry a negative
max_retries; the admission pipeline performs no validation, so the
created row has retry_count = 0 greater than max_retries = -1,
violating 0 ≤ retry_count ≤ max_retries in the jobs table. -/
theorem negative_max_retries_counterexample :
    (JobService.CreateJob (⟨[], []⟩ : Store) (⟨5, 10, []⟩ : RateLimiter)
        (⟨0, 0, 0, 0⟩ : Metrics) (⟨"t1", "", "p", some (-1)⟩ : CreateJobRequest) "id1" 50).1 =
      .ok (⟨"id1", "t1", none, "p", .pending, -1, 0, none, none, 50, 50⟩ : Job) ∧
    (⟨"id1", "t1", none, "p", .pending, -1, 0, none, none, 50, 50⟩ : Job) ∈
      (JobService.CreateJob (⟨[], []⟩ : Store) (⟨5, 10, []⟩ : RateLimiter)
        (⟨0, 0, 0, 0⟩ : Metrics) (⟨"t1", "", "p", some (-1)⟩ : CreateJobRequest)
        "id1" 50).2.1.jobs ∧
    ¬ ((⟨"id1", "t1", none, "p", .pending, -1, 0, none, none, 50, 50⟩ : Job).retryCount ≤
        (⟨"id1", "t1", none, "p", .pending, -1, 0, none, none, 50, 50⟩ : Job).maxRetries) := by
  decide

open SQLiteRepository WorkerService in
/-- C2 amended: the bound 0 ≤ retry_count ≤ max_retries holds for every
row admitted by CreateJob provided the request carries a non-negative
(or absent) max_retries — the pipeline itself does not validate the
field — and every worker transition preserves the bound, a job at its
budget being moved to the DLQ instead of having its count exceeded. -/
theorem retry_count_bound_amended :
    (∀ (st : Store) (rl : RateLimiter) (m : Metrics) (req : CreateJobRequest)
        (freshId : String) (now : Int),
      (req.maxRetries = none ∨ ∃ k, req.maxRetries = some k ∧ 0 ≤ k) →
      ∀ j ∈ (JobService.CreateJob st rl m req freshId now).2.1.jobs,
        j ∈ st.jobs ∨ (j.retryCount = 0 ∧ 0 ≤ j.maxRetries))
    ∧ (∀ (st : Store) (m : Metrics) (job : Job) (now : Int),
      (∀ r ∈ st.jobs, 0 ≤ r.retryCount ∧ r.retryCount ≤ r.maxRetries) →
      (∀ r ∈ st.jobs, r.id = job.id →
        r.retryCount = job.retryCount ∧ r.maxRetries = job.maxRetries) →
      ∀ r ∈ (processJob st m job now).1.jobs,
        0 ≤ r.retryCount ∧ r.retryCount ≤ r.maxRetries) := by
  constructor
  · intro st rl m req freshId now hreq j hj
    rcases JobService.CreateJob_store_cases st rl m req freshId now with hst | hst
    · rw [hst] at hj; exact Or.inl hj
    · rw [hst] at hj
      rcases List.mem_append.mp hj with hj | hj
      · exact Or.inl hj
      · rcases List.mem_singleton.mp hj with rfl
        refine Or.inr ⟨rfl, ?_⟩
        show (0 : Int) ≤ (JobService.newJobInput req freshId).maxRetries
        rcases hreq with hreq | ⟨k, hreq, hk⟩ <;>
          simp [JobService.newJobInput, hreq]
        exact hk
  · intro st m job now hinv hcons r hr
    unfold processJob at hr
    split at hr
    · unfold handleJobFailure at hr
      split at hr
      · next hretry =>
        rcases mem_map_ite hr with ⟨x1, hx1, ⟨hp1, hcase1⟩ | hcase1⟩
        · rcases mem_map_ite hx1 with ⟨x2, hx2, ⟨hp2, hcase2⟩ | hcase2⟩
          · rcases hcons x2 hx2 hp2 with ⟨hrc, hmr⟩
            rcases hinv x2 hx2 with ⟨h0, _⟩
            subst hcase1; subst hcase2
            refine ⟨?_, ?_⟩
            · show (0 : Int) ≤ x2.retryCount + 1
              omega
            · show x2.retryCount + 1 ≤ x2.maxRetries
              omega
          · rcases hinv x2 hx2 with ⟨h0, hb⟩
            subst hcase1; subst hcase2
            exact ⟨h0, hb⟩
        · rcases mem_map_ite hx1 with ⟨x2, hx2, ⟨hp2, hcase2⟩ | hcase2⟩
          · rcases hcons x2 hx2 hp2 with ⟨hrc, hmr⟩
            rcases hinv x2 hx2 with ⟨h0, _⟩
            subst hcase1; subst hcase2
            refine ⟨?_, ?_⟩
            · show (0 : Int) ≤ x2.retryCount + 1
              omega
            · show x2.retryCount + 1 ≤ x2.maxRetries
              omega
          · rcases hinv x2 hx2 with ⟨h0, hb⟩
            subst hcase1; subst hcase2
            exact ⟨h0, hb⟩
      · split at hr
        · next st1 hmv =>
          unfold SQLiteRepository.MoveToDeadLetterQueue at hmv
          split at hmv
          · cases hmv
          · cases hmv
            exact hinv r (List.mem_of_mem_filter hr)
        · exact hinv r hr
    · rcases mem_map_ite hr with ⟨x, hx, ⟨hp, hcase⟩ | hcase⟩ <;>
        rcases hinv x hx with ⟨h0, hb⟩ <;> subst hcase <;> exact ⟨h0, hb⟩

open SQLiteRepository WorkerService in
/-- Witness for retry_count_bound_amended: admission with the default
max_retries, and a failing worker pass over a consistent store. -/
theorem retry_count_bound_amended_witness :
    (∀ j ∈ (JobService.CreateJob (⟨[], []⟩ : Store) (⟨5, 10, []⟩ : RateLimiter)
        (⟨0, 0, 0, 0⟩ : Metrics) (⟨"t1", "", "p", none⟩ : CreateJobRequest) "id1" 50).2.1.jobs,
      j ∈ (⟨[], []⟩ : Store).jobs ∨ (j.retryCount = 0 ∧ 0 ≤ j.maxRetries)) ∧
    (∀ r ∈ (processJob (⟨[⟨"c", "t1", none, "fail", .running, 3, 0, some 1, some 31, 1, 1⟩], []⟩ : Store)
        (⟨0, 0, 0, 0⟩ : Metrics)
        (⟨"c", "t1", none, "fail", .running, 3, 0, some 1, some 31, 1, 1⟩ : Job) 40).1.jobs,
      0 ≤ r.retryCount ∧ r.retryCount ≤ r.maxRetries) :=
  ⟨retry_count_bound_amended.1 (⟨[], []⟩ : Store) (⟨5, 10, []⟩ : RateLimiter)
      (⟨0, 0, 0, 0⟩ : Metrics) (⟨"t1", "", "p", none⟩ : CreateJobRequest) "id1" 50
      (Or.inl rfl),
    retry_count_bound_amended.2
      (⟨[⟨"c", "t1", none, "fail", .running, 3, 0, some 1, some 31, 1, 1⟩], []⟩ : Store)
      (⟨0, 0, 0, 0⟩ : Metrics)
      (⟨"c", "t1", none, "fail", .running, 3, 0, some 1, some 31, 1, 1⟩ : Job) 40
      (by decide) (by decide)⟩

open RateLimiter in
/-- C10: CreateJob consults the submission-rate check before the
idempotency lookup, the concurrent cap and the insert, so every call
that passes that check — whether it then returns an existing job,
is rejected by the concurrent cap, fails on the insert, or succeeds —
ends with the limiter advanced to the checked state, in which the
tenant holds a fresh window of count 1 or its previous window with the
count advanced by one. -/
theorem submission_slot_always_consumed (st : Store) (rl : RateLimiter) (m : Metrics)
    (req : CreateJobRequest) (freshId : String) (now : Int) (rl1 : RateLimiter)
    (hrate : CheckSubmissionRate rl req.tenantId now = .ok rl1) :
    (JobService.CreateJob st rl m req freshId now).2.2.1 = rl1 ∧
    ∃ w1, lookupWindow rl1.submissionWindows req.tenantId = some w1 ∧
      ((w1.count = 1 ∧ w1.windowEnd = now + 60) ∨
        ∃ w, lookupWindow rl.submissionWindows req.tenantId = some w ∧ now ≤ w.windowEnd ∧
          w.count < rl.maxSubmissionsPerMinute ∧ w1.count = w.count + 1 ∧
          w1.windowEnd = w.windowEnd) :=
  ⟨JobService.CreateJob_limiter st rl m req freshId now rl1 hrate,
    CheckSubmissionRate_ok_window hrate⟩

open RateLimiter in
/-- Witness for submission_slot_always_consumed: a call returning an
existing keyed job still consumes a submission slot. -/
theorem submission_slot_always_consumed_witness :
    (JobService.CreateJob
        (⟨[⟨"orig", "t1", some "k1", "A", .pending, 3, 0, none, none, 10, 10⟩], []⟩ : Store)
        (⟨5, 10, [("t1", ⟨4, 70⟩)]⟩ : RateLimiter) (⟨1, 0, 0, 0⟩ : Metrics)
        (⟨"t1", "k1", "B", none⟩ : CreateJobRequest) "fresh" 50).2.2.1 =
      (⟨5, 10, [("t1", ⟨5, 70⟩)]⟩ : RateLimiter) ∧
    ∃ w1, lookupWindow (⟨5, 10, [("t1", ⟨5, 70⟩)]⟩ : RateLimiter).submissionWindows "t1" =
        some w1 ∧
      ((w1.count = 1 ∧ w1.windowEnd = 50 + 60) ∨
        ∃ w, lookupWindow (⟨5, 10, [("t1", ⟨4, 70⟩)]⟩ : RateLimiter).submissionWindows "t1" =
            some w ∧ 50 ≤ w.windowEnd ∧
          w.count < (⟨5, 10, [("t1", ⟨4, 70⟩)]⟩ : RateLimiter).maxSubmissionsPerMinute ∧
          w1.count = w.count + 1 ∧ w1.windowEnd = w.windowEnd) :=
  submission_slot_always_consumed
    (⟨[⟨"orig", "t1", some "k1", "A", .pending, 3, 0, none, none, 10, 10⟩], []⟩ : Store)
    (⟨5, 10, [("t1", ⟨4, 70⟩)]⟩ : RateLimiter) (⟨1, 0, 0, 0⟩ : Metrics)
    (⟨"t1", "k1", "B", none⟩ : CreateJobRequest) "fresh" 50
    (⟨5, 10, [("t1", ⟨5, 70⟩)]⟩ : RateLimiter) (by decide)

end JobQueue

